import Mathlib

/- Verification of the quiz attempt lifecycle of brain-flex-learn.

   The embedding covers the two places the claims are about:
   - the client logic of src/pages/QuizTaking.tsx (handleAnswerSubmit,
     handleNextQuestion, completeQuiz), modelled as pure transition
     functions over the component state together with the database rows
     they touch;
   - the database schema and trigger of
     supabase/migrations/20251030110058_....sql (the question_attempts
     table, the update_engagement_metrics trigger function and the
     track_user_engagement AFTER UPDATE trigger on quiz_attempts). -/

/-- A question row, restricted to the fields the attempt logic reads
    (QuizTaking.tsx `Question`: correct_answer, points; id kept to track
    which question a record belongs to). -/
structure Question where
  id : Nat
  correct_answer : String
  points : Nat
deriving Repr, DecidableEq

/-- One recorded answer.  The same shape is used for the client-side
    `attempts` array entries of QuizTaking.tsx and for the rows of the
    question_attempts table, since handleAnswerSubmit writes the same
    values to both (QuizTaking.tsx lines 147-164). -/
structure QuestionAttempt where
  questionId : Nat
  userAnswer : String
  isCorrect : Bool
  timeSpent : Nat
  pointsEarned : Nat
deriving Repr, DecidableEq

/-- The QuizTaking component state relevant to answering and completion,
    plus the question_attempts rows persisted so far for this attempt
    (`dbRecords`).  The question_attempts table declares no uniqueness
    constraint over (quiz_attempt_id, question_id) (migration lines
    191-202), so an INSERT always appends; `dbRecords` is therefore a
    plain list. -/
structure SessionState where
  questions : List Question
  currentQuestionIndex : Nat
  selectedAnswer : String
  showFeedback : Bool
  attempts : List QuestionAttempt
  dbRecords : List QuestionAttempt
deriving Repr, DecidableEq

/-- A quiz_attempts row (fields touched by the component and the trigger).
    `completed_at` is an optional timestamp, modelled as `Option Nat`. -/
structure AttemptRow where
  completed_at : Option Nat
  time_spent_seconds : Nat
  score : Nat
  correct_answers : Nat
  total_questions : Nat
deriving Repr, DecidableEq

/-- A profiles row (fields read and written by completeQuiz). -/
structure Profile where
  points : Nat
  streak_count : Nat
deriving Repr, DecidableEq

/-- A user_engagement_metrics row for the one (user_id, date) bucket a
    completion falls into. -/
structure EngagementRow where
  quizzes_completed : Nat
  total_time_spent_seconds : Nat
  total_score : Nat
deriving Repr, DecidableEq

/-- A quiz_assignments row for the (quiz_id, user_id) pair of the attempt
    (fields written by the trigger). -/
structure AssignmentRow where
  is_completed : Bool
  completed_at : Option Nat
deriving Repr, DecidableEq

/-- The database state seen by one finalize: the attempt row, the user's
    profile, the engagement bucket for (user, date of completion) if any,
    and the assignment row for (quiz, user) if any. -/
structure DBState where
  attempt : AttemptRow
  profile : Profile
  engagement : Option EngagementRow
  assignment : Option AssignmentRow
deriving Repr, DecidableEq

/-- JavaScript Math.round on the non-negative rational num/den:
    round-half-up, i.e. the floor of num/den + 1/2. -/
def jsRound (num den : Nat) : Nat :=
  (2 * num + den) / (2 * den)

/-- The user picking an answer: the option buttons and the short-answer
    input all guard the state change with `!showFeedback`
    (QuizTaking.tsx lines 404, 432, 455). -/
def selectAnswer (s : SessionState) (answer : String) : SessionState :=
  if s.showFeedback then s else { s with selectedAnswer := answer }

/-- handleAnswerSubmit (QuizTaking.tsx lines 137-174): returns early when
    no answer is selected; computes is_correct by `===` against
    correct_answer and points_earned as `isCorrect ? points : 0`; inserts
    one question_attempts row and appends the same record to the client
    `attempts` array; sets showFeedback.  It does not check showFeedback
    and nothing deduplicates by question. -/
def handleAnswerSubmit (s : SessionState) (timeSpent : Nat) : SessionState :=
  if s.selectedAnswer = "" then s
  else
    match s.questions.get? s.currentQuestionIndex with
    | none => s
    | some q =>
      let isCorrect := s.selectedAnswer == q.correct_answer
      let pointsEarned := if isCorrect then q.points else 0
      let r : QuestionAttempt :=
        { questionId := q.id
          userAnswer := s.selectedAnswer
          isCorrect := isCorrect
          timeSpent := timeSpent
          pointsEarned := pointsEarned }
      { s with
          dbRecords := s.dbRecords ++ [r]
          attempts := s.attempts ++ [r]
          showFeedback := true }

/-- The `showFeedback && selectedAnswer === questions[currentQuestionIndex].correct_answer`
    bonus term of completeQuiz (QuizTaking.tsx lines 191-192), which adds
    the currently displayed answer on top of the `attempts` array. -/
def bonusForDisplayedAnswer (s : SessionState) : Bool :=
  s.showFeedback &&
    (match s.questions.get? s.currentQuestionIndex with
     | some q => s.selectedAnswer == q.correct_answer
     | none => false)

/-- correctAnswers as computed by completeQuiz (line 191). -/
def completeQuizCorrectAnswers (s : SessionState) : Nat :=
  (s.attempts.filter (fun a => a.isCorrect)).length +
    (if bonusForDisplayedAnswer s then 1 else 0)

/-- totalPoints as computed by completeQuiz (line 192). -/
def completeQuizTotalPoints (s : SessionState) : Nat :=
  (s.attempts.map (fun a => a.pointsEarned)).sum +
    (if bonusForDisplayedAnswer s then
      (match s.questions.get? s.currentQuestionIndex with
       | some q => q.points
       | none => 0)
     else 0)

/-- score as computed by completeQuiz (line 193):
    Math.round((correctAnswers / questions.length) * 100). -/
def completeQuizScore (s : SessionState) : Nat :=
  jsRound (completeQuizCorrectAnswers s * 100) s.questions.length

/-- The trigger function update_engagement_metrics (migration lines
    67-94), run by track_user_engagement AFTER UPDATE on quiz_attempts:
    when completed_at transitions from NULL to non-NULL it upserts the
    (user_id, DATE(completed_at)) engagement row - insert with (1,
    time_spent, score) or ON CONFLICT add to all three counters - and then
    unconditionally sets the matching quiz_assignments row (if one
    exists) to is_completed = true, completed_at = NEW.completed_at.
    Otherwise it changes nothing. -/
def update_engagement_metrics (o n : AttemptRow)
    (eng : Option EngagementRow) (asg : Option AssignmentRow) :
    Option EngagementRow × Option AssignmentRow :=
  if n.completed_at ≠ none ∧ o.completed_at = none then
    (some (match eng with
      | none =>
        { quizzes_completed := 1
          total_time_spent_seconds := n.time_spent_seconds
          total_score := n.score }
      | some e =>
        { quizzes_completed := e.quizzes_completed + 1
          total_time_spent_seconds :=
            e.total_time_spent_seconds + n.time_spent_seconds
          total_score := e.total_score + n.score }),
     asg.map (fun a =>
       { a with is_completed := true, completed_at := n.completed_at }))
  else (eng, asg)

/-- An UPDATE of the quiz_attempts row: the row is replaced and the
    track_user_engagement trigger fires (AFTER UPDATE). -/
def updateQuizAttempt (db : DBState) (newRow : AttemptRow) : DBState :=
  let r := update_engagement_metrics db.attempt newRow db.engagement db.assignment
  { db with attempt := newRow, engagement := r.1, assignment := r.2 }

/-- An INSERT of a quiz_attempts row: track_user_engagement is declared
    AFTER UPDATE only (migration lines 96-99), so no trigger fires and
    the engagement and assignment rows are untouched. -/
def insertQuizAttempt (db : DBState) (row : AttemptRow) : DBState :=
  { db with attempt := row }

/-- completeQuiz (QuizTaking.tsx lines 187-240): computes correctAnswers,
    totalPoints and score from the client state; UPDATEs the quiz_attempts
    row by id with completed_at := now, with no condition on the previous
    completed_at; then reads the profile and writes back
    points := read points + totalPoints and
    streak_count := score >= 70 ? read streak + 1 : 0. -/
def completeQuiz (s : SessionState) (db : DBState)
    (now totalTimeSpent : Nat) : DBState :=
  let correctAnswers := completeQuizCorrectAnswers s
  let totalPoints := completeQuizTotalPoints s
  let score := completeQuizScore s
  let db1 := updateQuizAttempt db
    { db.attempt with
        completed_at := some now
        time_spent_seconds := totalTimeSpent
        score := score
        correct_answers := correctAnswers }
  let currentProfile := db1.profile
  let newStreak := if score ≥ 70 then currentProfile.streak_count + 1 else 0
  { db1 with
      profile :=
        { points := currentProfile.points + totalPoints
          streak_count := newStreak } }

/-- handleNextQuestion (QuizTaking.tsx lines 176-185): advance to the
    next question, or run completeQuiz when on the last one. -/
def handleNextQuestion (s : SessionState) (db : DBState)
    (now totalTimeSpent : Nat) : SessionState × DBState :=
  if s.currentQuestionIndex < s.questions.length - 1 then
    ({ s with
        currentQuestionIndex := s.currentQuestionIndex + 1
        selectedAnswer := ""
        showFeedback := false }, db)
  else
    (s, completeQuiz s db now totalTimeSpent)

/-- One user interaction round for one question: pick an answer, submit
    it, click Next (which finalizes on the last question). -/
def playStep (now totalTimeSpent : Nat)
    (st : SessionState × DBState) (ans : String × Nat) :
    SessionState × DBState :=
  let s1 := selectAnswer st.1 ans.1
  let s2 := handleAnswerSubmit s1 ans.2
  handleNextQuestion s2 st.2 now totalTimeSpent

/-- A full pass through a quiz: the initial component state of
    QuizTaking.tsx, then one playStep per submitted answer.  The last
    step runs completeQuiz. -/
def playQuiz (questions : List Question) (answers : List (String × Nat))
    (db : DBState) (now totalTimeSpent : Nat) : SessionState × DBState :=
  answers.foldl (playStep now totalTimeSpent)
    ({ questions := questions
       currentQuestionIndex := 0
       selectedAnswer := ""
       showFeedback := false
       attempts := []
       dbRecords := [] }, db)

/-- Scoring-engine recomputation from the persisted question_attempts
    records, following the spec words (count of is_correct rows). -/
def persistedCorrectAnswers (records : List QuestionAttempt) : Nat :=
  (records.filter (fun a => a.isCorrect)).length

/-- Scoring-engine recomputation from the persisted question_attempts
    records, following the spec words (sum of points_earned). -/
def persistedTotalPoints (records : List QuestionAttempt) : Nat :=
  (records.map (fun a => a.pointsEarned)).sum

/-- Scoring-engine recomputation from the persisted question_attempts
    records, following the spec words (round-half-up percentage). -/
def persistedScore (records : List QuestionAttempt) (totalQuestions : Nat) : Nat :=
  jsRound (persistedCorrectAnswers records * 100) totalQuestions

/-- Surrounding whitespace removed from a character list (leading and
    trailing whitespace dropped). -/
def trimChars (cs : List Char) : List Char :=
  ((cs.dropWhile (fun c => c.isWhitespace)).reverse.dropWhile
    (fun c => c.isWhitespace)).reverse

/-- Comparison definition following the spec words for the answer check:
    case-sensitive exact match with surrounding whitespace trimmed from
    the compared values. -/
def isCorrectSpecTrimmed (answer : String) (q : Question) : Bool :=
  trimChars answer.data == trimChars q.correct_answer.data

/-- State of the profiles.points column under two clients A and B that
    each run the completeQuiz profile code path: a SELECT of points
    (lines 208-212) into a local variable, then an UPDATE that writes
    that local value plus the client's totalPoints (line 219). -/
structure PointsRace where
  stored : Nat
  readA : Option Nat
  readB : Option Nat
deriving Repr, DecidableEq

/-- One storage round trip of the completeQuiz profile code path by
    client A or client B. -/
inductive RaceOp where
  | readA
  | readB
  | writeA
  | writeB
deriving Repr, DecidableEq

/-- Effect of one round trip: a read copies the stored points into the
    client's local profile; a write stores the client's read value plus
    its delta, exactly as `points: currentProfile.points + totalPoints`
    (QuizTaking.tsx line 219).  A write with no prior read does nothing
    (the code always reads first). -/
def raceStep (deltaA deltaB : Nat) (st : PointsRace) : RaceOp → PointsRace
  | RaceOp.readA => { st with readA := some st.stored }
  | RaceOp.readB => { st with readB := some st.stored }
  | RaceOp.writeA =>
    match st.readA with
    | some r => { st with stored := r + deltaA }
    | none => st
  | RaceOp.writeB =>
    match st.readB with
    | some r => { st with stored := r + deltaB }
    | none => st

/-- Final stored profiles.points after an interleaving of the two
    clients' round trips, starting from p points. -/
def runRace (deltaA deltaB p : Nat) (ops : List RaceOp) : Nat :=
  (ops.foldl (raceStep deltaA deltaB) { stored := p, readA := none, readB := none }).stored

/-- A one-question quiz: the single question is worth 5 points with
    correct answer A. -/
def qOne : Question := { id := 1, correct_answer := "A", points := 5 }

/-- Fresh database state for an attempt just created: the quiz_attempts
    row as inserted by initializeQuiz (completed_at NULL, defaults 0,
    total_questions copied from the question count), no engagement row
    yet, no assignment, profile at zero. -/
def dbInit (totalQuestions : Nat) : DBState :=
  { attempt :=
      { completed_at := none
        time_spent_seconds := 0
        score := 0
        correct_answers := 0
        total_questions := totalQuestions }
    profile := { points := 0, streak_count := 0 }
    engagement := none
    assignment := none }

/-- Playing the one-question quiz once, answering its question correctly,
    then finalizing (now = 100, total time = 300 seconds). -/
def oneQuestionRun : SessionState × DBState :=
  playQuiz [qOne] [("A", 3)] (dbInit 1) 100 300

/-- Calling completeQuiz a second time on the already-finalized attempt
    (a retry at now = 200), from the same final component state. -/
def oneQuestionSecondFinalize : DBState :=
  completeQuiz oneQuestionRun.1 oneQuestionRun.2 200 300

/-- The spec scenario quiz: 5 questions with points [1, 1, 2, 1, 1], all
    with correct answer A. -/
def quizFive : List Question :=
  [{ id := 1, correct_answer := "A", points := 1 },
   { id := 2, correct_answer := "A", points := 1 },
   { id := 3, correct_answer := "A", points := 2 },
   { id := 4, correct_answer := "A", points := 1 },
   { id := 5, correct_answer := "A", points := 1 }]

/-- Four correct answers then a wrong one (score 80). -/
def answersFourCorrect : List (String × Nat) :=
  [("A", 10), ("A", 10), ("A", 10), ("A", 10), ("B", 10)]

/-- Three correct answers then two wrong ones (score 60). -/
def answersThreeCorrect : List (String × Nat) :=
  [("A", 10), ("A", 10), ("A", 10), ("B", 10), ("B", 10)]

/-- Fresh database state for the five-question quiz with a prior streak. -/
def dbWithStreak (streak : Nat) : DBState :=
  { attempt :=
      { completed_at := none
        time_spent_seconds := 0
        score := 0
        correct_answers := 0
        total_questions := 5 }
    profile := { points := 0, streak_count := streak }
    engagement := none
    assignment := none }

/-- A session about to submit an answer for the one-question quiz. -/
def dupSession : SessionState :=
  { questions := [qOne]
    currentQuestionIndex := 0
    selectedAnswer := "A"
    showFeedback := false
    attempts := []
    dbRecords := [] }

/-- C1: a second completeQuiz on an already-finalized attempt is not an
    idempotent no-op.  The quiz_attempts UPDATE is not conditioned on
    completed_at being NULL, so the retry overwrites completed_at
    (100 becomes 200), and the profile point delta is applied again
    (points 10 becomes 20, a double count); only the engagement trigger,
    guarded by OLD.completed_at IS NULL, fires once. -/
theorem c1_second_finalize_double_counts_points :
    oneQuestionRun.2.profile.points = 10 ∧
    oneQuestionSecondFinalize.profile.points = 20 ∧
    oneQuestionRun.2.attempt.completed_at = some 100 ∧
    oneQuestionSecondFinalize.attempt.completed_at = some 200 ∧
    oneQuestionSecondFinalize.engagement = oneQuestionRun.2.engagement := by
  decide

/-- C2: completeQuiz does not compute its result from the persisted
    question_attempts records.  On a one-question quiz answered
    correctly, the persisted records give 1 correct answer, 5 points and
    score 100, but completeQuiz stores correct_answers = 2, score = 200
    and adds a 10-point delta: the currently displayed answer is counted
    a second time on top of the attempts array (the showFeedback bonus
    term of lines 191-192). -/
theorem c2_finalize_counts_displayed_answer_twice :
    oneQuestionRun.2.attempt.correct_answers = 2 ∧
    persistedCorrectAnswers oneQuestionRun.1.dbRecords = 1 ∧
    oneQuestionRun.2.attempt.score = 200 ∧
    persistedScore oneQuestionRun.1.dbRecords 1 = 100 ∧
    oneQuestionRun.2.profile.points = 10 ∧
    persistedTotalPoints oneQuestionRun.1.dbRecords = 5 := by
  decide

/-- C3: the invariant 0 ≤ correct_answers ≤ total_questions fails after
    finalize.  Playing the one-question quiz and answering correctly
    stores correct_answers = 2 against total_questions = 1 (and score
    200), because the last displayed answer is double-counted. -/
theorem c3_stored_correct_answers_exceeds_total :
    oneQuestionRun.2.attempt.correct_answers = 2 ∧
    oneQuestionRun.2.attempt.total_questions = 1 ∧
    ¬ oneQuestionRun.2.attempt.correct_answers ≤
        oneQuestionRun.2.attempt.total_questions := by
  decide

/-- C4: the profile points update is a read-then-write round trip, not an
    atomic increment, and it loses updates.  With prior points 0 and two
    concurrent finalizations with deltas 5 and 7, the interleaving
    read A, read B, write A, write B leaves points = 7, not the
    0 + (5 + 7) = 12 the claim requires; only the fully sequential
    interleaving reaches 12. -/
theorem c4_read_then_write_loses_update :
    runRace 5 7 0 [RaceOp.readA, RaceOp.readB, RaceOp.writeA, RaceOp.writeB] = 7 ∧
    (7 : Nat) ≠ 0 + (5 + 7) ∧
    runRace 5 7 0 [RaceOp.readA, RaceOp.writeA, RaceOp.readB, RaceOp.writeB] = 12 := by
  decide

/-- C5 counterexample: a second handleAnswerSubmit for the same
    (attempt, question) does not fail and does create a second record:
    after two submissions for question 1 the question_attempts table
    holds two rows for it (nothing in the schema or the code rejects the
    duplicate), refuting the claimed DuplicateAnswer rejection. -/
theorem c5_second_answer_creates_second_record :
    (handleAnswerSubmit (handleAnswerSubmit dupSession 5) 7).dbRecords =
      [{ questionId := 1, userAnswer := "A", isCorrect := true,
         timeSpent := 5, pointsEarned := 5 },
       { questionId := 1, userAnswer := "A", isCorrect := true,
         timeSpent := 7, pointsEarned := 5 }] ∧
    ¬ (handleAnswerSubmit (handleAnswerSubmit dupSession 5) 7).dbRecords.length = 1 := by
  decide

/-- C5 (amended): a repeated handleAnswerSubmit for the same question
    succeeds and appends one more question_attempts row; the previously
    stored rows, the first record included, stand unchanged. -/
theorem c5_duplicate_insert_appends (s : SessionState) (t : Nat)
    (h1 : ¬ s.selectedAnswer = "")
    (h2 : s.currentQuestionIndex < s.questions.length) :
    (handleAnswerSubmit s t).dbRecords.length = s.dbRecords.length + 1 ∧
    (handleAnswerSubmit s t).dbRecords.take s.dbRecords.length = s.dbRecords := by
  unfold handleAnswerSubmit
  rw [if_neg h1, List.get?_eq_get h2]
  exact ⟨by simp, List.take_left _ _⟩

/-- C5 witness: the amended statement at the concrete second call. -/
theorem c5_duplicate_insert_appends_witness :
    (handleAnswerSubmit (handleAnswerSubmit dupSession 5) 7).dbRecords.length =
      (handleAnswerSubmit dupSession 5).dbRecords.length + 1 ∧
    (handleAnswerSubmit (handleAnswerSubmit dupSession 5) 7).dbRecords.take
      (handleAnswerSubmit dupSession 5).dbRecords.length =
      (handleAnswerSubmit dupSession 5).dbRecords :=
  c5_duplicate_insert_appends (handleAnswerSubmit dupSession 5) 7
    (by decide) (by decide)

/-- C6: on the NULL-to-non-NULL completion transition the trigger upserts
    the (user_id, date) engagement row: an absent row becomes
    (1, time_spent, score) and an existing row has all three counters
    incremented additively (stated uniformly with the absent case read as
    counters 0). -/
theorem c6_engagement_upsert (o n : AttemptRow)
    (eng : Option EngagementRow) (asg : Option AssignmentRow)
    (h1 : o.completed_at = none) (h2 : n.completed_at ≠ none) :
    (update_engagement_metrics o n eng asg).1 =
      some
        { quizzes_completed := (eng.map (fun e => e.quizzes_completed)).getD 0 + 1
          total_time_spent_seconds :=
            (eng.map (fun e => e.total_time_spent_seconds)).getD 0 + n.time_spent_seconds
          total_score := (eng.map (fun e => e.total_score)).getD 0 + n.score } := by
  unfold update_engagement_metrics
  rw [if_pos ⟨h2, h1⟩]
  cases eng
  · simp
  · simp

/-- C6 witness: the spec scenario.  An absent row after a 300-second
    score-80 completion becomes (1, 300, 80); a second 120-second
    score-50 completion the same day makes it (2, 420, 130). -/
theorem c6_engagement_upsert_witness :
    (update_engagement_metrics
      { completed_at := none, time_spent_seconds := 0, score := 0,
        correct_answers := 0, total_questions := 5 }
      { completed_at := some 100, time_spent_seconds := 300, score := 80,
        correct_answers := 4, total_questions := 5 }
      none none).1 =
      some { quizzes_completed := 1, total_time_spent_seconds := 300, total_score := 80 } ∧
    (update_engagement_metrics
      { completed_at := none, time_spent_seconds := 0, score := 0,
        correct_answers := 0, total_questions := 5 }
      { completed_at := some 200, time_spent_seconds := 120, score := 50,
        correct_answers := 3, total_questions := 5 }
      (some { quizzes_completed := 1, total_time_spent_seconds := 300, total_score := 80 })
      none).1 =
      some { quizzes_completed := 2, total_time_spent_seconds := 420, total_score := 130 } :=
  ⟨c6_engagement_upsert _ _ _ _ rfl (by decide),
   c6_engagement_upsert _ _ _ _ rfl (by decide)⟩

/-- C7 counterexample: the quiz_assignments UPDATE in the trigger is not
    conditioned on is_completed = false.  When a second attempt for the
    same quiz and user is finalized (its own completed_at transitioning
    NULL to 200), an assignment row that was already completed at 100 is
    rewritten to completed_at = 200 - not left unchanged as claimed. -/
theorem c7_second_finalize_changes_assignment :
    (update_engagement_metrics
      { completed_at := none, time_spent_seconds := 0, score := 0,
        correct_answers := 0, total_questions := 1 }
      { completed_at := some 200, time_spent_seconds := 120, score := 50,
        correct_answers := 1, total_questions := 1 }
      none
      (some { is_completed := true, completed_at := some 100 })).2 =
      some { is_completed := true, completed_at := some 200 } ∧
    ¬ (some { is_completed := true, completed_at := some 200 } : Option AssignmentRow) =
        some { is_completed := true, completed_at := some 100 } := by
  decide

/-- C7 (amended): on every completion transition the trigger sets the
    existing assignment row to is_completed = true with completed_at
    equal to the attempt's completed_at, regardless of the row's prior
    completion state - so the first finalize completes the assignment as
    claimed, but a later finalize of another attempt for the same quiz
    and user overwrites completed_at instead of leaving the row
    unchanged. -/
theorem c7_assignment_overwritten_on_completion (o n : AttemptRow)
    (eng : Option EngagementRow) (a : AssignmentRow) (t : Nat)
    (h1 : o.completed_at = none) (h2 : n.completed_at = some t) :
    (update_engagement_metrics o n eng (some a)).2 =
      some { is_completed := true, completed_at := some t } := by
  unfold update_engagement_metrics
  rw [if_pos ⟨by rw [h2]; exact fun h => Option.noConfusion h, h1⟩]
  simp [h2]

/-- C7 witness: the amended statement at the first finalize (pending
    assignment) and at a second finalize (already-completed assignment). -/
theorem c7_assignment_overwritten_on_completion_witness :
    (update_engagement_metrics
      { completed_at := none, time_spent_seconds := 0, score := 0,
        correct_answers := 0, total_questions := 1 }
      { completed_at := some 100, time_spent_seconds := 300, score := 80,
        correct_answers := 1, total_questions := 1 }
      none
      (some { is_completed := false, completed_at := none })).2 =
      some { is_completed := true, completed_at := some 100 } ∧
    (update_engagement_metrics
      { completed_at := none, time_spent_seconds := 0, score := 0,
        correct_answers := 0, total_questions := 1 }
      { completed_at := some 200, time_spent_seconds := 120, score := 50,
        correct_answers := 1, total_questions := 1 }
      none
      (some { is_completed := true, completed_at := some 100 })).2 =
      some { is_completed := true, completed_at := some 200 } :=
  ⟨c7_assignment_overwritten_on_completion _ _ _ _ 100 rfl rfl,
   c7_assignment_overwritten_on_completion _ _ _ _ 200 rfl rfl⟩

/-- C8: completeQuiz applies exactly the claimed streak rule - the new
    streak_count is the prior one plus 1 when the computed score is at
    least 70, and 0 otherwise; in particular, on the five-question spec
    scenario a prior streak of 2 becomes 3 at score 80 and becomes 0 at
    score 60. -/
theorem c8_streak_rule :
    (∀ (s : SessionState) (db : DBState) (now tts : Nat),
      (completeQuiz s db now tts).profile.streak_count =
        if completeQuizScore s ≥ 70 then db.profile.streak_count + 1 else 0) ∧
    (playQuiz quizFive answersFourCorrect (dbWithStreak 2) 100 300).2.attempt.score = 80 ∧
    (playQuiz quizFive answersFourCorrect (dbWithStreak 2) 100 300).2.profile.streak_count = 3 ∧
    (playQuiz quizFive answersThreeCorrect (dbWithStreak 2) 100 300).2.attempt.score = 60 ∧
    (playQuiz quizFive answersThreeCorrect (dbWithStreak 2) 100 300).2.profile.streak_count = 0 := by
  refine ⟨fun s db now tts => rfl, ?_, ?_, ?_, ?_⟩ <;> decide

/-- C9 counterexample: the answer comparison does not trim surrounding
    whitespace.  For the question with correct_answer A, the submitted
    answer with a trailing blank is correct under the spec's trimmed
    comparison, but handleAnswerSubmit stores is_correct = false and
    points_earned = 0 for it. -/
theorem c9_trailing_space_scored_incorrect :
    isCorrectSpecTrimmed "A " qOne = true ∧
    (handleAnswerSubmit
      { questions := [qOne], currentQuestionIndex := 0,
        selectedAnswer := "A ", showFeedback := false,
        attempts := [], dbRecords := [] } 1).dbRecords =
      [{ questionId := 1, userAnswer := "A ", isCorrect := false,
         timeSpent := 1, pointsEarned := 0 }] := by
  decide

/-- C9 (amended): is_correct is computed by exact, case-sensitive string
    equality of the submitted answer with the question's correct_answer,
    with no whitespace trimming, and points_earned is the question's
    points when correct and 0 otherwise - this is the record
    handleAnswerSubmit appends. -/
theorem c9_exact_match_untrimmed (s : SessionState) (t : Nat) (q : Question)
    (h1 : ¬ s.selectedAnswer = "")
    (h2 : s.questions.get? s.currentQuestionIndex = some q) :
    (handleAnswerSubmit s t).dbRecords =
      s.dbRecords ++
        [{ questionId := q.id
           userAnswer := s.selectedAnswer
           isCorrect := s.selectedAnswer == q.correct_answer
           timeSpent := t
           pointsEarned :=
             if s.selectedAnswer == q.correct_answer then q.points else 0 }] := by
  unfold handleAnswerSubmit
  rw [if_neg h1, h2]

/-- C9 witness: the amended statement at a lowercase answer against the
    uppercase correct_answer - the exact match is case-sensitive, so the
    stored record is incorrect and earns 0 points. -/
theorem c9_exact_match_untrimmed_witness :
    (handleAnswerSubmit
      { questions := [qOne], currentQuestionIndex := 0,
        selectedAnswer := "a", showFeedback := false,
        attempts := [], dbRecords := [] } 2).dbRecords =
      [{ questionId := 1, userAnswer := "a", isCorrect := false,
         timeSpent := 2, pointsEarned := 0 }] := by
  have h := c9_exact_match_untrimmed
    { questions := [qOne], currentQuestionIndex := 0,
      selectedAnswer := "a", showFeedback := false,
      attempts := [], dbRecords := [] } 2 qOne (by decide) rfl
  simpa using h

/-- C10: engagement counting and assignment completion happen only on an
    UPDATE of quiz_attempts whose completed_at transitions from NULL to
    non-NULL: an INSERT never fires the trigger (it is AFTER UPDATE
    only), an update of an attempt whose completed_at was already set
    changes neither row, and an update that leaves completed_at NULL
    changes neither row. -/
theorem c10_engagement_only_on_null_transition :
    (∀ (db : DBState) (row : AttemptRow),
      (insertQuizAttempt db row).engagement = db.engagement ∧
      (insertQuizAttempt db row).assignment = db.assignment) ∧
    (∀ (o n : AttemptRow) (eng : Option EngagementRow) (asg : Option AssignmentRow),
      o.completed_at ≠ none →
      update_engagement_metrics o n eng asg = (eng, asg)) ∧
    (∀ (o n : AttemptRow) (eng : Option EngagementRow) (asg : Option AssignmentRow),
      n.completed_at = none →
      update_engagement_metrics o n eng asg = (eng, asg)) := by
  refine ⟨fun db row => ⟨rfl, rfl⟩,
    fun o n eng asg h => ?_, fun o n eng asg h => ?_⟩
  · unfold update_engagement_metrics
    exact if_neg (fun hc => h hc.2)
  · unfold update_engagement_metrics
    exact if_neg (fun hc => hc.1 h)

/-- C10 witness: a second update of an already-completed attempt leaves
    both rows unchanged, and so does an update that does not set
    completed_at. -/
theorem c10_engagement_only_on_null_transition_witness :
    update_engagement_metrics
      { completed_at := some 100, time_spent_seconds := 300, score := 200,
        correct_answers := 2, total_questions := 1 }
      { completed_at := some 200, time_spent_seconds := 300, score := 200,
        correct_answers := 2, total_questions := 1 }
      (some { quizzes_completed := 1, total_time_spent_seconds := 300, total_score := 200 })
      (some { is_completed := true, completed_at := some 100 }) =
      (some { quizzes_completed := 1, total_time_spent_seconds := 300, total_score := 200 },
       some { is_completed := true, completed_at := some 100 }) ∧
    update_engagement_metrics
      { completed_at := none, time_spent_seconds := 0, score := 0,
        correct_answers := 0, total_questions := 1 }
      { completed_at := none, time_spent_seconds := 50, score := 0,
        correct_answers := 0, total_questions := 1 }
      none none = (none, none) :=
  ⟨c10_engagement_only_on_null_transition.2.1 _ _ _ _ (by decide),
   c10_engagement_only_on_null_transition.2.2 _ _ _ _ rfl⟩
